import Mathlib

/-!
Verification development for the autogit repository: a daemon that watches a
git working tree, asks an AI backend for a commit message when changes are
present, and commits/pushes automatically.  Go code is shallowly embedded:
subprocess and HTTP calls become explicit environment records, file writes and
notifications become events, Go `int`/`time.Duration` arithmetic is modelled
on `Int` with explicit wrapping modulo 2^64, and Go byte strings are modelled
as `List Char`.
-/

namespace Autogit

/-- Byte strings of the Go code (Go `string` is a byte slice; we model bytes
as characters). -/
abbrev Bytes := List Char

/-! ## Status constants (internal/daemon, `const` block) -/

def StatusRunning : String := "running"

def StatusError : String := "error"

def StatusPaused : String := "paused"

/-! ## Configuration (internal/config/config.go) -/

/-- The `Config` struct of internal/config/config.go. -/
structure Config where
  aiProvider : String
  apiKey : String
  baseURL : String
  checkIntervalMinutes : Int
  rootPath : String
  deriving DecidableEq, Repr

/-- The `DaemonInfo` struct of internal/config/config.go. -/
structure DaemonInfo where
  pid : Int
  repoPath : String
  status : String
  deriving DecidableEq, Repr

/-- JSON scalar values as they appear in the persisted config record. -/
inductive JVal where
  | jstr (s : String)
  | jnum (n : Int)
  deriving DecidableEq, Repr

/-- Go `SaveConfig` serialises the record with `json.MarshalIndent`; every field
carries a json tag and none is `omitempty`, so all five keys are written.
File IO is abstracted away: this is the content of the written file. -/
def SaveConfig (c : Config) : List (String × JVal) :=
  [("ai_provider", JVal.jstr c.aiProvider),
   ("api_key", JVal.jstr c.apiKey),
   ("base_url", JVal.jstr c.baseURL),
   ("check_interval_minutes", JVal.jnum c.checkIntervalMinutes),
   ("root_path", JVal.jstr c.rootPath)]

def lookupJStr (kv : List (String × JVal)) (k : String) : Option String :=
  match kv with
  | [] => none
  | (k1, JVal.jstr s) :: rest => if k1 = k then some s else lookupJStr rest k
  | (k1, JVal.jnum _) :: rest => if k1 = k then none else lookupJStr rest k

def lookupJNum (kv : List (String × JVal)) (k : String) : Option Int :=
  match kv with
  | [] => none
  | (k1, JVal.jnum n) :: rest => if k1 = k then some n else lookupJNum rest k
  | (k1, JVal.jstr _) :: rest => if k1 = k then none else lookupJNum rest k

/-- Fuel-driven floor of the base-2 logarithm (structurally recursive, so
concrete values reduce inside the kernel; the first argument is fuel). -/
def log2Fuel : Nat → Nat → Nat
  | 0, _ => 0
  | fuel + 1, m => if m ≤ 1 then 0 else log2Fuel fuel (m / 2) + 1

/-- Floor of the base-2 logarithm (0 for 0 and 1). -/
def floorLog2 (m : Nat) : Nat := log2Fuel m m

/-- Nearest-float64 value of a natural number (round to nearest, ties to
even), as produced by encoding/json when it decodes a JSON integer into
`interface{}` (always a float64).  Exact for m up to 2^53 = 9007199254740992;
larger numbers are rounded to a multiple of a power of two. -/
def f64RoundNat (m : Nat) : Nat :=
  if m ≤ 9007199254740992 then m
  else
    let k := floorLog2 m - 52
    let q := m / 2 ^ k
    let r := m % 2 ^ k
    let half := 2 ^ (k - 1)
    let q1 :=
      if half < r then q + 1
      else if r < half then q
      else if q % 2 = 0 then q else q + 1
    q1 * 2 ^ k

/-- Nearest-float64 value of an integer. -/
def f64RoundInt (n : Int) : Int :=
  if n < 0 then -(f64RoundNat n.natAbs : Nat) else (f64RoundNat n.natAbs : Nat)

/-- Go `LoadConfig` (file-present path), through viper (config.go:62-99).
`viper.ReadInConfig` parses the json file with encoding/json, so a JSON
number reaches viper as a float64: the saved integer is rounded by
`f64RoundInt` before mapstructure converts it back to the Go int field.
`viper.SetDefault` supplies `ai_provider = "gemini"`,
`check_interval_minutes = 10`, `base_url = ""` for keys absent from the
file; fields with neither a file value nor a default unmarshal to the Go
zero value.  `viper.SetEnvPrefix("AUTOGIT")` plus `viper.AutomaticEnv()`
(config.go:89-91) make a set environment variable override both file value
and default: `env` maps a config key to the raw string value of the
corresponding `AUTOGIT_*` variable, if set.  An environment string for the
int field is converted by weakly-typed parsing and makes `Unmarshal` fail
when it is not numeric (`none`).  (The corner where the rounded float64 no
longer fits a Go int is implementation-specific in Go and not reached by
the claims; the model keeps the rounded value there.) -/
def LoadConfig (env : String → Option String) (kv : List (String × JVal)) :
    Option Config :=
  let strField := fun (k dflt : String) =>
    match env k with
    | some s => s
    | none => (lookupJStr kv k).getD dflt
  let intervalFile : Int :=
    match lookupJNum kv "check_interval_minutes" with
    | some n => f64RoundInt n
    | none => 10
  match env "check_interval_minutes" with
  | some s =>
    match s.toInt? with
    | some n => some
        { aiProvider := strField "ai_provider" "gemini"
          apiKey := strField "api_key" ""
          baseURL := strField "base_url" ""
          checkIntervalMinutes := n
          rootPath := strField "root_path" "" }
    | none => none
  | none => some
      { aiProvider := strField "ai_provider" "gemini"
        apiKey := strField "api_key" ""
        baseURL := strField "base_url" ""
        checkIntervalMinutes := intervalFile
        rootPath := strField "root_path" "" }

/-! ## Check interval (internal/config/config.go, `GetCheckInterval`)

Go `time.Duration` is `int64` nanoseconds; `time.Duration(n) * time.Minute`
multiplies in int64 and wraps on overflow.  `int64wrap` reduces an integer
into the int64 range the way twos-complement multiplication does. -/

/-- Go `time.Minute` in nanoseconds. -/
def durationMinute : Int := 60000000000

/-- Go `DefaultCheckInterval = 10 * time.Minute`. -/
def DefaultCheckInterval : Int := 10 * durationMinute

/-- Twos-complement wrap of an integer into `[-2^63, 2^63)`. -/
def int64wrap (n : Int) : Int := (n + 2 ^ 63) % 2 ^ 64 - 2 ^ 63

/-- Go `(c *Config) GetCheckInterval()`: non-positive minutes fall back to the
default; otherwise the minute count is converted to a `time.Duration` by
int64 multiplication with `time.Minute`. -/
def GetCheckInterval (checkIntervalMinutes : Int) : Int :=
  if checkIntervalMinutes ≤ 0 then DefaultCheckInterval
  else int64wrap (checkIntervalMinutes * durationMinute)

/-! ## Byte-string helpers (Go `strings` package) -/

/-- Whitespace as cut by `strings.TrimSpace` (ASCII fragment). -/
def isSpaceByte (c : Char) : Bool :=
  c = ' ' || c = '\t' || c = '\n' || c = '\x0b' || c = '\x0c' || c = '\r'

/-- Go `strings.TrimSpace`: drop leading and trailing whitespace. -/
def trimSpace (s : Bytes) : Bytes :=
  ((s.dropWhile isSpaceByte).reverse.dropWhile isSpaceByte).reverse

/-- Characters removed from both ends of an AI reply by
`strings.Trim(message, "\x22\x27\x60")`. -/
def isQuoteChar (c : Char) : Bool :=
  c = '\x22' || c = '\x27' || c = '\x60'

/-- Go `strings.Trim` with the quote cutset. -/
def trimQuotes (s : Bytes) : Bytes :=
  ((s.dropWhile isQuoteChar).reverse.dropWhile isQuoteChar).reverse

/-! ## Git layer (internal/git/git.go) -/

/-- Go `git.HasChanges`: run `git status --porcelain` and report whether the
trimmed output is non-empty.  The argument is the porcelain output of the
collaborator git binary. -/
def HasChanges (statusOutput : Bytes) : Bool :=
  decide (0 < (trimSpace statusOutput).length)

/-- Go `git.GetDiff` returns the raw output of `git diff` unchanged. -/
def GetDiff (diffOutput : Bytes) : Bytes := diffOutput

/-- Collaborator model: the uncommitted state of a working tree, as the set
of modified tracked files and untracked files (by path). -/
structure WorkTree where
  trackedModified : List Bytes
  untracked : List Bytes
  deriving DecidableEq, Repr

/-- Collaborator model: `git status --porcelain` prints one newline-terminated
line per entry, " M path" for a tracked modification and "?? path" for an
untracked file. -/
def gitStatusPorcelain (wt : WorkTree) : Bytes :=
  ((wt.trackedModified.map (fun p => ' ' :: 'M' :: ' ' :: p ++ ['\n'])) ++
   (wt.untracked.map (fun p => '?' :: '?' :: ' ' :: p ++ ['\n']))).flatten

/-- Collaborator model: `git diff` emits a header block per modified tracked
file and nothing for untracked files. -/
def gitDiff (wt : WorkTree) : Bytes :=
  (wt.trackedModified.map
    (fun p => "diff --git a/".data ++ p ++ " b/".data ++ p ++ ['\n'])).flatten

/-! ## AI providers (internal/ai) -/

/-- The fixed system instruction of internal/ai (`SystemPrompt`). -/
def SystemPrompt : String :=
  "You are a git automation bot. Analyze the provided code diff. Respond ONLY with a concise, Conventional Commit message (e.g., \x27fix(ui): adjust button padding\x27). Do not add quotes or markdown."

/-- Maximum diff size transmitted to a backend (both providers use 100000). -/
def maxDiffLen : Nat := 100000

/-- Marker appended to a truncated diff. -/
def truncMarker : Bytes := "\n... (truncated)".data

/-- The truncation step shared verbatim by both providers:
`if len(diff) > 100000 then diff = diff[:100000] + "\n... (truncated)"`. -/
def truncateDiff (diff : Bytes) : Bytes :=
  if diff.length > maxDiffLen then diff.take maxDiffLen ++ truncMarker else diff

/-- Prompt assembled by both providers: system instruction, a fixed header,
then the (possibly truncated) diff. -/
def buildPrompt (diff : Bytes) : Bytes :=
  SystemPrompt.data ++ "\n\nCode diff:\n".data ++ truncateDiff diff

/-- An outbound generation request: url, headers, and the prompt text that is
transmitted to the backend. -/
structure AIRequest where
  url : String
  headers : List (String × String)
  prompt : Bytes
  deriving DecidableEq, Repr

/-- Go `GeminiProvider.GenerateCommitMsg`.  `response` abstracts the HTTP round
trip and response parsing: an error for a failed request or unparsable body,
`none` when the candidate list or parts list is empty, and the first
candidate text otherwise.  Returns the result and the request made (none if
no request was transmitted). -/
def geminiGenerateCommitMsg (apiKey : String) (diff : Bytes)
    (response : Except String (Option Bytes)) :
    Except String String × Option AIRequest :=
  if apiKey = "" then (Except.error "Gemini API key is not set", none)
  else
    let req : AIRequest :=
      { url := "https://generativelanguage.googleapis.com/v1beta/models/gemini-3-flash-preview:generateContent?key=" ++ apiKey
        headers := [("Content-Type", "application/json")]
        prompt := buildPrompt diff }
    match response with
    | Except.error e => (Except.error e, some req)
    | Except.ok none => (Except.error "no response from Gemini API", some req)
    | Except.ok (some text) =>
        (Except.ok (String.mk (trimQuotes (trimSpace text))), some req)

/-- Go `AnthropicProvider.GenerateCommitMsg`, same conventions as the Gemini
model. -/
def anthropicGenerateCommitMsg (apiKey : String) (diff : Bytes)
    (response : Except String (Option Bytes)) :
    Except String String × Option AIRequest :=
  if apiKey = "" then (Except.error "Anthropic API key is not set", none)
  else
    let req : AIRequest :=
      { url := "https://api.anthropic.com/v1/messages"
        headers := [("Content-Type", "application/json"),
                    ("x-api-key", apiKey),
                    ("anthropic-version", "2023-06-01")]
        prompt := buildPrompt diff }
    match response with
    | Except.error e => (Except.error e, some req)
    | Except.ok none => (Except.error "no response from Anthropic API", some req)
    | Except.ok (some text) =>
        (Except.ok (String.mk (trimQuotes (trimSpace text))), some req)

/-! ## Daemon cycle (internal/daemon, `checkAndCommit` and `runLoop`)

Collaborator calls, log lines, notifications, the ticker stop and descriptor
file writes are recorded as events, in program order. -/

/-- Observable events of one daemon process. -/
inductive Event where
  | logMsg (s : String)
  | callHasChanges
  | callGetDiff
  | callGenerate (diff : Bytes)
  | callAddAll
  | callCommit (msg : String)
  | callPush
  | notifyError (repoName errText : String)
  | notifySuccess (repoName commitMsg : String)
  | tickerStop
  | writeDaemonInfo (info : DaemonInfo)
  deriving DecidableEq, Repr

/-- Results of the git collaborator calls available to one cycle.
`statusPorcelain` is the raw `git status --porcelain` output (or the command
failure), `diffOutput` the raw `git diff` output. -/
structure GitEnv where
  statusPorcelain : Except String Bytes
  diffOutput : Except String Bytes
  addAllResult : Except String Unit
  commitResult : Except String Unit
  pushResult : Except String Unit

/-- Environment of one cycle: the git layer plus the AI provider behaviour. -/
structure CycleEnv where
  git : GitEnv
  generate : Bytes → Except String String

/-- In-memory daemon state relevant to the loop: the `status` field, the
repository name, and whether the ticker is still delivering ticks. -/
structure DaemonState where
  status : String
  repoName : String
  tickerActive : Bool
  deriving DecidableEq, Repr

/-- Go `(d *Daemon) checkAndCommit`: one cycle of the commit pipeline, returning
the updated daemon state and the events emitted, in order. -/
def checkAndCommit (env : CycleEnv) (d : DaemonState) : DaemonState × List Event :=
  match env.git.statusPorcelain with
  | Except.error e =>
      (d, [Event.logMsg "Checking for changes...", Event.callHasChanges,
           Event.logMsg ("ERROR: Failed to check changes: " ++ e)])
  | Except.ok statusOut =>
    if HasChanges statusOut = false then
      (d, [Event.logMsg "Checking for changes...", Event.callHasChanges,
           Event.logMsg "No changes detected"])
    else
      match env.git.diffOutput with
      | Except.error e =>
          (d, [Event.logMsg "Checking for changes...", Event.callHasChanges,
               Event.logMsg "Changes detected, generating commit message...",
               Event.callGetDiff,
               Event.logMsg ("ERROR: Failed to get diff: " ++ e)])
      | Except.ok diffOut =>
        let diff := GetDiff diffOut
        match env.generate diff with
        | Except.error e =>
            (d, [Event.logMsg "Checking for changes...", Event.callHasChanges,
                 Event.logMsg "Changes detected, generating commit message...",
                 Event.callGetDiff, Event.callGenerate diff,
                 Event.logMsg ("ERROR: Failed to generate commit message: " ++ e)])
        | Except.ok commitMsg =>
          match env.git.addAllResult with
          | Except.error e =>
              (d, [Event.logMsg "Checking for changes...", Event.callHasChanges,
                   Event.logMsg "Changes detected, generating commit message...",
                   Event.callGetDiff, Event.callGenerate diff,
                   Event.logMsg ("Generated commit message: " ++ commitMsg),
                   Event.callAddAll,
                   Event.logMsg ("ERROR: Failed to stage changes: " ++ e)])
          | Except.ok _ =>
            match env.git.commitResult with
            | Except.error e =>
                (d, [Event.logMsg "Checking for changes...", Event.callHasChanges,
                     Event.logMsg "Changes detected, generating commit message...",
                     Event.callGetDiff, Event.callGenerate diff,
                     Event.logMsg ("Generated commit message: " ++ commitMsg),
                     Event.callAddAll, Event.callCommit commitMsg,
                     Event.logMsg ("ERROR: Failed to commit: " ++ e)])
            | Except.ok _ =>
              match env.git.pushResult with
              | Except.error e =>
                  ({ d with status := StatusError, tickerActive := false },
                   [Event.logMsg "Checking for changes...", Event.callHasChanges,
                    Event.logMsg "Changes detected, generating commit message...",
                    Event.callGetDiff, Event.callGenerate diff,
                    Event.logMsg ("Generated commit message: " ++ commitMsg),
                    Event.callAddAll, Event.callCommit commitMsg,
                    Event.logMsg "Committed successfully", Event.callPush,
                    Event.logMsg ("ERROR: Failed to push: " ++ e),
                    Event.notifyError d.repoName e, Event.tickerStop])
              | Except.ok _ =>
                  ({ d with status := StatusRunning },
                   [Event.logMsg "Checking for changes...", Event.callHasChanges,
                    Event.logMsg "Changes detected, generating commit message...",
                    Event.callGetDiff, Event.callGenerate diff,
                    Event.logMsg ("Generated commit message: " ++ commitMsg),
                    Event.callAddAll, Event.callCommit commitMsg,
                    Event.logMsg "Committed successfully", Event.callPush,
                    Event.logMsg "Pushed successfully",
                    Event.notifySuccess d.repoName commitMsg])

/-- Inputs the `runLoop` select statement can observe: a ticker tick or the
stop signal. -/
inductive LoopInput where
  | tick
  | stop
  deriving DecidableEq, Repr

/-- One iteration of the `runLoop` select: a tick runs a cycle, but a stopped
ticker (`time.Ticker.Stop`) delivers no ticks, so a tick input while the
ticker is inactive does nothing; the stop signal stops the ticker, logs, and
exits the loop (third component: loop exited). -/
def runStep (env : CycleEnv) (d : DaemonState) :
    LoopInput → DaemonState × List Event × Bool
  | LoopInput.tick =>
      if d.tickerActive then
        let r := checkAndCommit env d
        (r.1, r.2, false)
      else (d, [], false)
  | LoopInput.stop =>
      ({ d with tickerActive := false },
       [Event.tickerStop, Event.logMsg "Daemon stopped"], true)

/-- Process a sequence of loop inputs, stopping at the first input that exits
the loop. -/
def processInputs (env : CycleEnv) (d : DaemonState) :
    List LoopInput → DaemonState × List Event
  | [] => (d, [])
  | i :: rest =>
    match runStep env d i with
    | (d1, evs, true) => (d1, evs)
    | (d1, evs, false) =>
        let r := processInputs env d1 rest
        (r.1, evs ++ r.2)

/-- Go `runLoop`: the initial cycle runs immediately, then the loop processes
ticks and the stop signal. -/
def runLoop (env : CycleEnv) (d : DaemonState) (inputs : List LoopInput) :
    DaemonState × List Event :=
  let c := checkAndCommit env d
  let r := processInputs env c.1 inputs
  (r.1, c.2 ++ r.2)

/-- Go `daemon.StartDaemonProcess`: resolve the executable path, spawn the
detached child, and on success persist a fresh descriptor with the child pid,
the root path and status `running`.  `execPath` abstracts
`os.Executable`/`filepath.Abs`, `spawnPid` the `cmd.Start` outcome, and
`saveResult` the descriptor file write. -/
def StartDaemonProcess (execPath : Except String String)
    (spawnPid : Except String Int) (saveResult : Except String Unit)
    (rootPath : String) : Except String Unit × List Event :=
  match execPath with
  | Except.error e => (Except.error ("failed to get executable path: " ++ e), [])
  | Except.ok _ =>
    match spawnPid with
    | Except.error e => (Except.error ("failed to start daemon: " ++ e), [])
    | Except.ok pid =>
      let info : DaemonInfo := { pid := pid, repoPath := rootPath, status := StatusRunning }
      match saveResult with
      | Except.error e =>
          (Except.error ("failed to save daemon info: " ++ e),
           [Event.writeDaemonInfo info])
      | Except.ok _ => (Except.ok (), [Event.writeDaemonInfo info])

/-! ## Control surface (cmd/autogit, `statusCmd` and `pauseCmd`) -/

/-- What `statusCmd` prints. -/
inductive StatusReport where
  | notRunning
  | crashed
  | report (status : String) (pid : Int) (repoPath : String)
  deriving DecidableEq, Repr

/-- Persisted-state mutations a control command can perform. -/
inductive CtlEffect where
  | deleteDaemonFile
  | writeDaemonFile (info : DaemonInfo)
  | sendSigterm (pid : Int)
  deriving DecidableEq, Repr

/-- Go `statusCmd`: load the descriptor (`load` is the `LoadDaemonInfo` result:
read error, absent file as `ok none`, or the parsed record), probe liveness of
the recorded pid, and report.  Returns the report and the (empty) list of
mutations. -/
def statusCmd (load : Except String (Option DaemonInfo)) (live : Int → Bool) :
    StatusReport × List CtlEffect :=
  match load with
  | Except.error _ => (StatusReport.notRunning, [])
  | Except.ok none => (StatusReport.notRunning, [])
  | Except.ok (some info) =>
      if live info.pid then
        (StatusReport.report info.status info.pid info.repoPath, [])
      else (StatusReport.crashed, [])

/-- Go `pauseCmd`: load the descriptor; absent or unreadable fails with
"no daemon is running"; a dead pid deletes the stale descriptor and fails;
a live pid is sent SIGTERM (`findOk` abstracts `os.FindProcess`,
`signalResult` the `Signal` call) and the descriptor is deleted on success. -/
def pauseCmd (load : Except String (Option DaemonInfo)) (live : Int → Bool)
    (findOk : Bool) (signalResult : Except String Unit) :
    Except String Unit × List CtlEffect :=
  match load with
  | Except.error _ => (Except.error "no daemon is running", [])
  | Except.ok none => (Except.error "no daemon is running", [])
  | Except.ok (some info) =>
      if live info.pid then
        if findOk then
          match signalResult with
          | Except.error e =>
              (Except.error ("failed to stop daemon: " ++ e),
               [CtlEffect.sendSigterm info.pid])
          | Except.ok _ =>
              (Except.ok (),
               [CtlEffect.sendSigterm info.pid, CtlEffect.deleteDaemonFile])
        else (Except.error "failed to find process", [])
      else
        (Except.error "daemon process not found (may have crashed)",
         [CtlEffect.deleteDaemonFile])

/-! ## Event queries and concrete sample inputs -/

/-- Is an event a call to the generation backend? -/
def isGenerateCall : Event → Bool
  | Event.callGenerate _ => true
  | _ => false

/-- Number of generation calls in an event trace. -/
def generateCalls (evs : List Event) : Nat :=
  (evs.filter isGenerateCall).length

/-- Sample git environment: one modified tracked file, everything up to and
including commit succeeds, push fails. -/
def gitPushFail : GitEnv :=
  { statusPorcelain := Except.ok " M main.go\n".data
    diffOutput := Except.ok "diff --git a/main.go b/main.go\n".data
    addAllResult := Except.ok ()
    commitResult := Except.ok ()
    pushResult := Except.error "remote rejected" }

/-- Sample cycle environment whose push step fails. -/
def envPushFail : CycleEnv :=
  { git := gitPushFail, generate := fun _ => Except.ok "fix: sample" }

/-- Sample git environment with a clean working tree (empty porcelain
output). -/
def gitClean : GitEnv :=
  { statusPorcelain := Except.ok []
    diffOutput := Except.ok []
    addAllResult := Except.ok ()
    commitResult := Except.ok ()
    pushResult := Except.ok () }

/-- Sample cycle environment with no uncommitted changes. -/
def envClean : CycleEnv :=
  { git := gitClean, generate := fun _ => Except.ok "fix: sample" }

/-- Sample cycle environment whose generation step fails. -/
def envGenFail : CycleEnv :=
  { git := { gitPushFail with pushResult := Except.ok () }
    generate := fun _ => Except.error "request failed: timeout" }

/-- Sample in-memory daemon state of a freshly started daemon. -/
def d0 : DaemonState :=
  { status := StatusRunning, repoName := "git-autobot", tickerActive := true }

/-- Sample daemon descriptor. -/
def info0 : DaemonInfo :=
  { pid := 4242, repoPath := "/home/u/git-autobot", status := StatusRunning }

/-! ## Helper lemmas -/

/-- Dropping leading whitespace leaves only whitespace exactly when the whole
string is whitespace. -/
theorem allSpace_dropWhile_iff (s : Bytes) :
    (∀ x ∈ s.dropWhile isSpaceByte, isSpaceByte x) ↔ ∀ c ∈ s, isSpaceByte c := by
  induction s with
  | nil => simp
  | cons a t ih =>
    by_cases h : isSpaceByte a
    · simp [List.dropWhile_cons, h, ih]
    · simp [List.dropWhile_cons, h]

/-- A trimmed byte string is empty exactly when every byte is whitespace. -/
theorem trimSpace_eq_nil_iff (s : Bytes) :
    trimSpace s = [] ↔ ∀ c ∈ s, isSpaceByte c := by
  unfold trimSpace
  rw [List.reverse_eq_nil_iff, List.dropWhile_eq_nil_iff]
  simp only [List.mem_reverse]
  exact allSpace_dropWhile_iff s

/-- The change detector fires exactly when the porcelain output contains a
non-whitespace byte. -/
theorem hasChanges_iff_exists (s : Bytes) :
    HasChanges s = true ↔ ∃ c ∈ s, isSpaceByte c = false := by
  unfold HasChanges
  rw [decide_eq_true_iff, List.length_pos]
  constructor
  · intro h
    by_contra hc
    push_neg at hc
    exact h ((trimSpace_eq_nil_iff s).mpr (by
      intro c hcmem
      have := hc c hcmem
      simp [Bool.not_eq_false] at this
      exact this))
  · rintro ⟨c, hcmem, hw⟩ hnil
    have := (trimSpace_eq_nil_iff s).mp hnil c hcmem
    simp [this] at hw

/-- Once the ticker is inactive, tick inputs leave the loop state and event
trace unchanged. -/
theorem processInputs_ticks_inactive (env : CycleEnv) (d : DaemonState)
    (hd : d.tickerActive = false) (inputs : List LoopInput)
    (hin : ∀ i ∈ inputs, i = LoopInput.tick) :
    processInputs env d inputs = (d, []) := by
  induction inputs with
  | nil => simp [processInputs]
  | cons i rest ih =>
    have hi : i = LoopInput.tick := hin i (List.mem_cons_self i rest)
    subst hi
    have hrest : ∀ j ∈ rest, j = LoopInput.tick :=
      fun j hj => hin j (List.mem_cons_of_mem _ hj)
    simp [processInputs, runStep, hd, ih hrest]

/-! ## Claim theorems -/

/-- The float64 decode is the identity on integers of magnitude at most
2^53. -/
theorem f64RoundInt_eq_self (n : Int) (h : n.natAbs ≤ 9007199254740992) :
    f64RoundInt n = n := by
  have hr : f64RoundNat n.natAbs = n.natAbs := by
    unfold f64RoundNat
    rw [if_pos h]
  unfold f64RoundInt
  rw [hr]
  split <;> omega

/-- Loading what was saved, with no environment overrides, reproduces the
record except that the interval passes through the float64 decode. -/
theorem LoadConfig_emptyEnv_save (c : Config) :
    LoadConfig (fun _ => none) (SaveConfig c) =
      some { c with checkIntervalMinutes := f64RoundInt c.checkIntervalMinutes } := by
  cases c
  rfl

/-- C10 (counterexample): the round-trip is not field-for-field for every
record.  At CheckIntervalMinutes = 9007199254740993 = 2^53 + 1 the saved
JSON integer decodes through float64 to 9007199254740992, so the reloaded
interval differs from the saved one even with no environment overrides. -/
theorem config_roundtrip_precision_loss :
    LoadConfig (fun _ => none) (SaveConfig
      { aiProvider := "gemini", apiKey := "sk-ant-key", baseURL := "",
        checkIntervalMinutes := 9007199254740993, rootPath := "/home/u/git-autobot" }) =
      some { aiProvider := "gemini", apiKey := "sk-ant-key", baseURL := "",
             checkIntervalMinutes := 9007199254740992, rootPath := "/home/u/git-autobot" } ∧
    LoadConfig (fun _ => none) (SaveConfig
      { aiProvider := "gemini", apiKey := "sk-ant-key", baseURL := "",
        checkIntervalMinutes := 9007199254740993, rootPath := "/home/u/git-autobot" }) ≠
      some { aiProvider := "gemini", apiKey := "sk-ant-key", baseURL := "",
             checkIntervalMinutes := 9007199254740993, rootPath := "/home/u/git-autobot" } := by
  constructor
  · decide
  · decide

/-- C10 (amended): with no AUTOGIT environment variable set, saving a
configuration record and reloading it yields field-for-field equal values
for provider, credential, endpoint override, and check interval, provided
the interval magnitude is at most 2^53; beyond that the JSON float64 decode
rounds the interval (and a set environment variable overrides a saved
value). -/
theorem config_save_load_roundtrip (c : Config) (env : String → Option String)
    (henv : ∀ k, env k = none)
    (hint : c.checkIntervalMinutes.natAbs ≤ 9007199254740992) :
    LoadConfig env (SaveConfig c) = some c ∧
    ∀ c2, LoadConfig env (SaveConfig c) = some c2 →
      c2.aiProvider = c.aiProvider ∧ c2.apiKey = c.apiKey ∧
      c2.baseURL = c.baseURL ∧
      c2.checkIntervalMinutes = c.checkIntervalMinutes := by
  have he : env = fun _ => none := funext henv
  subst he
  have h : LoadConfig (fun _ => none) (SaveConfig c) = some c := by
    rw [LoadConfig_emptyEnv_save c, f64RoundInt_eq_self c.checkIntervalMinutes hint]
  refine ⟨h, fun c2 hc2 => ?_⟩
  rw [h] at hc2
  cases hc2
  exact ⟨rfl, rfl, rfl, rfl⟩

/-- C10 (amended) witness: a concrete record with a 15-minute interval
round-trips under the empty environment. -/
theorem config_save_load_roundtrip_witness :
    (∀ k : String, (fun _ : String => (none : Option String)) k = none) ∧
    ({ aiProvider := "gemini", apiKey := "sk-ant-k", baseURL := "",
       checkIntervalMinutes := 15,
       rootPath := "/home/u/git-autobot" } : Config).checkIntervalMinutes.natAbs ≤
      9007199254740992 ∧
    LoadConfig (fun _ => none) (SaveConfig
      { aiProvider := "gemini", apiKey := "sk-ant-k", baseURL := "",
        checkIntervalMinutes := 15, rootPath := "/home/u/git-autobot" }) =
      some { aiProvider := "gemini", apiKey := "sk-ant-k", baseURL := "",
             checkIntervalMinutes := 15, rootPath := "/home/u/git-autobot" } :=
  ⟨fun _ => rfl, by decide,
   (config_save_load_roundtrip
     { aiProvider := "gemini", apiKey := "sk-ant-k", baseURL := "",
       checkIntervalMinutes := 15, rootPath := "/home/u/git-autobot" }
     (fun _ => none) (fun _ => rfl) (by decide)).1⟩

/-- C4 (counterexample): the claim says the effective interval is never zero
or negative and equals n minutes for every positive n, but Go computes
`time.Duration(n) * time.Minute` in int64, which wraps: at
n = 9007199254740992 = 2^53 the product is a multiple of 2^64 and the
effective interval is exactly 0. -/
theorem getCheckInterval_overflow_zero :
    0 < (9007199254740992 : Int) ∧ GetCheckInterval 9007199254740992 = 0 := by
  constructor
  · decide
  · decide

/-- C4 (amended): non-positive (or missing) configured intervals yield the
fixed default of 10 minutes, which is positive; every positive value n whose
nanosecond value n * 60e9 fits below 2^63 yields exactly n minutes, a
positive duration.  (For larger n the int64 multiplication wraps.) -/
theorem getCheckInterval_amended (n : Int) :
    (n ≤ 0 → GetCheckInterval n = DefaultCheckInterval) ∧
    DefaultCheckInterval = 10 * durationMinute ∧
    0 < DefaultCheckInterval ∧
    (0 < n → n * durationMinute < 2 ^ 63 →
      GetCheckInterval n = n * durationMinute ∧ 0 < GetCheckInterval n) := by
  refine ⟨fun h => by simp [GetCheckInterval, h], rfl, by decide, fun hpos hlt => ?_⟩
  have hv0 : 0 ≤ n * durationMinute := by
    have : (0 : Int) ≤ durationMinute := by decide
    exact mul_nonneg hpos.le this
  have heq : GetCheckInterval n = n * durationMinute := by
    rw [GetCheckInterval, if_neg (by omega)]
    unfold int64wrap
    rw [Int.emod_eq_of_lt (by omega) (by omega)]
    omega
  refine ⟨heq, ?_⟩
  rw [heq]
  have : (0 : Int) < durationMinute := by decide
  exact mul_pos hpos this

/-- C4 (amended) witness: a negative configured interval falls back to the
default, and 7 configured minutes yield exactly 7 minutes. -/
theorem getCheckInterval_amended_witness :
    ((-5 : Int) ≤ 0 ∧ GetCheckInterval (-5) = DefaultCheckInterval) ∧
    (0 < (7 : Int) ∧ 7 * durationMinute < 2 ^ 63 ∧
      GetCheckInterval 7 = 7 * durationMinute ∧ 0 < GetCheckInterval 7) :=
  ⟨⟨by decide, (getCheckInterval_amended (-5)).1 (by decide)⟩,
   ⟨by decide, by decide,
    ((getCheckInterval_amended 7).2.2.2 (by decide) (by decide)).1,
    ((getCheckInterval_amended 7).2.2.2 (by decide) (by decide)).2⟩⟩

/-- C5: for both providers, when a request is transmitted, the transmitted
prompt is the fixed system instruction plus the diff; a diff longer than the
fixed maximum is cut to the maximum and an explicit truncation marker is
appended (the transmitted cut is a prefix of the original diff of exactly the
maximum length), and a diff at or below the maximum is transmitted
unmodified. -/
theorem diff_truncation_on_transmit (apiKey : String) (diff : Bytes)
    (respG respA : Except String (Option Bytes)) (h : apiKey ≠ "") :
    ∃ reqG reqA : AIRequest,
      (geminiGenerateCommitMsg apiKey diff respG).2 = some reqG ∧
      (anthropicGenerateCommitMsg apiKey diff respA).2 = some reqA ∧
      reqG.prompt = buildPrompt diff ∧
      reqA.prompt = buildPrompt diff ∧
      (diff.length ≤ maxDiffLen →
        buildPrompt diff = SystemPrompt.data ++ "\n\nCode diff:\n".data ++ diff) ∧
      (diff.length > maxDiffLen →
        buildPrompt diff =
          SystemPrompt.data ++ "\n\nCode diff:\n".data ++
            (diff.take maxDiffLen ++ truncMarker) ∧
        (diff.take maxDiffLen).length = maxDiffLen ∧
        diff.take maxDiffLen ++ diff.drop maxDiffLen = diff) := by
  have hg : (geminiGenerateCommitMsg apiKey diff respG).2 =
      some { url := "https://generativelanguage.googleapis.com/v1beta/models/gemini-3-flash-preview:generateContent?key=" ++ apiKey
             headers := [("Content-Type", "application/json")]
             prompt := buildPrompt diff } := by
    unfold geminiGenerateCommitMsg
    rw [if_neg h]
    cases respG with
    | error e => rfl
    | ok o => cases o with
      | none => rfl
      | some t => rfl
  have ha : (anthropicGenerateCommitMsg apiKey diff respA).2 =
      some { url := "https://api.anthropic.com/v1/messages"
             headers := [("Content-Type", "application/json"),
                         ("x-api-key", apiKey),
                         ("anthropic-version", "2023-06-01")]
             prompt := buildPrompt diff } := by
    unfold anthropicGenerateCommitMsg
    rw [if_neg h]
    cases respA with
    | error e => rfl
    | ok o => cases o with
      | none => rfl
      | some t => rfl
  refine ⟨_, _, hg, ha, rfl, rfl, fun hle => ?_, fun hgt => ?_⟩
  · unfold buildPrompt truncateDiff
    rw [if_neg (by omega)]
  · refine ⟨by unfold buildPrompt truncateDiff; rw [if_pos hgt], ?_, ?_⟩
    · rw [List.length_take]
      omega
    · exact List.take_append_drop maxDiffLen diff

/-- C5 witness: a concrete provider call with a non-empty key transmits the
short sample diff unmodified. -/
theorem diff_truncation_on_transmit_witness :
    ("gk-0123456789" : String) ≠ "" ∧
    (∃ reqG reqA : AIRequest,
      (geminiGenerateCommitMsg "gk-0123456789" "abc".data (Except.ok none)).2 = some reqG ∧
      (anthropicGenerateCommitMsg "gk-0123456789" "abc".data (Except.ok none)).2 = some reqA ∧
      reqG.prompt = buildPrompt "abc".data ∧
      reqA.prompt = buildPrompt "abc".data ∧
      ("abc".data.length ≤ maxDiffLen →
        buildPrompt "abc".data =
          SystemPrompt.data ++ "\n\nCode diff:\n".data ++ "abc".data) ∧
      ("abc".data.length > maxDiffLen →
        buildPrompt "abc".data =
          SystemPrompt.data ++ "\n\nCode diff:\n".data ++
            ("abc".data.take maxDiffLen ++ truncMarker) ∧
        ("abc".data.take maxDiffLen).length = maxDiffLen ∧
        "abc".data.take maxDiffLen ++ "abc".data.drop maxDiffLen = "abc".data)) :=
  ⟨by decide,
   diff_truncation_on_transmit "gk-0123456789" "abc".data (Except.ok none)
     (Except.ok none) (by decide)⟩

/-- C3: a cycle that finds no uncommitted changes ends immediately: the event
trace is exactly the check plus the no-op log line, so diff retrieval,
message generation, staging, commit and push are never invoked and the state
is unchanged. -/
theorem no_changes_cycle_noop (env : CycleEnv) (d : DaemonState) (statusOut : Bytes)
    (h1 : env.git.statusPorcelain = Except.ok statusOut)
    (h2 : HasChanges statusOut = false) :
    checkAndCommit env d =
      (d, [Event.logMsg "Checking for changes...", Event.callHasChanges,
           Event.logMsg "No changes detected"]) ∧
    Event.callGetDiff ∉ (checkAndCommit env d).2 ∧
    (∀ dd, Event.callGenerate dd ∉ (checkAndCommit env d).2) ∧
    Event.callAddAll ∉ (checkAndCommit env d).2 ∧
    (∀ m, Event.callCommit m ∉ (checkAndCommit env d).2) ∧
    Event.callPush ∉ (checkAndCommit env d).2 ∧
    Event.logMsg "No changes detected" ∈ (checkAndCommit env d).2 := by
  have h : checkAndCommit env d =
      (d, [Event.logMsg "Checking for changes...", Event.callHasChanges,
           Event.logMsg "No changes detected"]) := by
    simp [checkAndCommit, h1, h2]
  refine ⟨h, ?_, ?_, ?_, ?_, ?_, ?_⟩ <;> simp [h]

/-- C3 witness: a clean working tree (empty porcelain output) makes the cycle
a logged no-op. -/
theorem no_changes_cycle_noop_witness :
    envClean.git.statusPorcelain = Except.ok [] ∧
    HasChanges [] = false ∧
    checkAndCommit envClean d0 =
      (d0, [Event.logMsg "Checking for changes...", Event.callHasChanges,
            Event.logMsg "No changes detected"]) :=
  ⟨rfl, by decide, (no_changes_cycle_noop envClean d0 [] rfl (by decide)).1⟩

/-- C6: when the generation step fails, the cycle ends with no staging,
commit, or push call, no notification of either kind, no substituted commit
message, and the daemon state unchanged, so a Running daemon stays Running
and the next tick retries. -/
theorem generation_failure_aborts_cycle (env : CycleEnv) (d : DaemonState)
    (statusOut diffOut : Bytes) (e : String)
    (h1 : env.git.statusPorcelain = Except.ok statusOut)
    (h2 : HasChanges statusOut = true)
    (h3 : env.git.diffOutput = Except.ok diffOut)
    (h4 : env.generate (GetDiff diffOut) = Except.error e)
    (h5 : d.status = StatusRunning) :
    checkAndCommit env d =
      (d, [Event.logMsg "Checking for changes...", Event.callHasChanges,
           Event.logMsg "Changes detected, generating commit message...",
           Event.callGetDiff, Event.callGenerate (GetDiff diffOut),
           Event.logMsg ("ERROR: Failed to generate commit message: " ++ e)]) ∧
    (checkAndCommit env d).1.status = StatusRunning ∧
    Event.callAddAll ∉ (checkAndCommit env d).2 ∧
    (∀ m, Event.callCommit m ∉ (checkAndCommit env d).2) ∧
    Event.callPush ∉ (checkAndCommit env d).2 ∧
    (∀ a b, Event.notifyError a b ∉ (checkAndCommit env d).2) ∧
    (∀ a b, Event.notifySuccess a b ∉ (checkAndCommit env d).2) := by
  have h : checkAndCommit env d =
      (d, [Event.logMsg "Checking for changes...", Event.callHasChanges,
           Event.logMsg "Changes detected, generating commit message...",
           Event.callGetDiff, Event.callGenerate (GetDiff diffOut),
           Event.logMsg ("ERROR: Failed to generate commit message: " ++ e)]) := by
    simp [checkAndCommit, h1, h2, h3, h4]
  refine ⟨h, ?_, ?_, ?_, ?_, ?_, ?_⟩ <;> simp [h, h5]

/-- C6 witness: a concrete cycle whose backend request times out aborts with
the daemon still Running. -/
theorem generation_failure_aborts_cycle_witness :
    envGenFail.git.statusPorcelain = Except.ok " M main.go\n".data ∧
    HasChanges " M main.go\n".data = true ∧
    envGenFail.git.diffOutput = Except.ok "diff --git a/main.go b/main.go\n".data ∧
    envGenFail.generate (GetDiff "diff --git a/main.go b/main.go\n".data) =
      Except.error "request failed: timeout" ∧
    d0.status = StatusRunning ∧
    (checkAndCommit envGenFail d0).1.status = StatusRunning :=
  ⟨rfl, by decide, rfl, rfl, rfl,
   (generation_failure_aborts_cycle envGenFail d0 " M main.go\n".data
     "diff --git a/main.go b/main.go\n".data "request failed: timeout"
     rfl (by decide) rfl rfl rfl).2.1⟩

/-- C1: a cycle whose push step fails moves the daemon from Running to the
error status, stops the ticker, emits a user-facing failure notification
carrying the repository name and the error text, and afterwards no further
automatic cycle runs: every subsequent tick input leaves the state and trace
empty (only spawning a new daemon process yields an active ticker again). -/
theorem push_failure_pauses_daemon (env : CycleEnv) (d : DaemonState)
    (statusOut diffOut : Bytes) (msg e : String)
    (h1 : env.git.statusPorcelain = Except.ok statusOut)
    (h2 : HasChanges statusOut = true)
    (h3 : env.git.diffOutput = Except.ok diffOut)
    (h4 : env.generate (GetDiff diffOut) = Except.ok msg)
    (h5 : env.git.addAllResult = Except.ok ())
    (h6 : env.git.commitResult = Except.ok ())
    (h7 : env.git.pushResult = Except.error e)
    (_h8 : d.status = StatusRunning) :
    (checkAndCommit env d).1.status = StatusError ∧
    (checkAndCommit env d).1.tickerActive = false ∧
    Event.notifyError d.repoName e ∈ (checkAndCommit env d).2 ∧
    Event.tickerStop ∈ (checkAndCommit env d).2 ∧
    ∀ (env2 : CycleEnv) (inputs : List LoopInput),
      (∀ i ∈ inputs, i = LoopInput.tick) →
      processInputs env2 (checkAndCommit env d).1 inputs =
        ((checkAndCommit env d).1, []) := by
  have h : checkAndCommit env d =
      ({ d with status := StatusError, tickerActive := false },
       [Event.logMsg "Checking for changes...", Event.callHasChanges,
        Event.logMsg "Changes detected, generating commit message...",
        Event.callGetDiff, Event.callGenerate (GetDiff diffOut),
        Event.logMsg ("Generated commit message: " ++ msg),
        Event.callAddAll, Event.callCommit msg,
        Event.logMsg "Committed successfully", Event.callPush,
        Event.logMsg ("ERROR: Failed to push: " ++ e),
        Event.notifyError d.repoName e, Event.tickerStop]) := by
    simp [checkAndCommit, h1, h2, h3, h4, h5, h6, h7]
  refine ⟨by simp [h], by simp [h], by simp [h], by simp [h], ?_⟩
  intro env2 inputs hin
  exact processInputs_ticks_inactive env2 _ (by simp [h]) inputs hin

/-- C1 witness: the concrete push-failure environment pauses the sample
daemon, and two further ticks do nothing. -/
theorem push_failure_pauses_daemon_witness :
    envPushFail.git.statusPorcelain = Except.ok " M main.go\n".data ∧
    HasChanges " M main.go\n".data = true ∧
    envPushFail.git.diffOutput = Except.ok "diff --git a/main.go b/main.go\n".data ∧
    envPushFail.generate (GetDiff "diff --git a/main.go b/main.go\n".data) =
      Except.ok "fix: sample" ∧
    envPushFail.git.addAllResult = Except.ok () ∧
    envPushFail.git.commitResult = Except.ok () ∧
    envPushFail.git.pushResult = Except.error "remote rejected" ∧
    d0.status = StatusRunning ∧
    ((checkAndCommit envPushFail d0).1.status = StatusError ∧
     (checkAndCommit envPushFail d0).1.tickerActive = false ∧
     Event.notifyError d0.repoName "remote rejected" ∈ (checkAndCommit envPushFail d0).2 ∧
     Event.tickerStop ∈ (checkAndCommit envPushFail d0).2 ∧
     ∀ (env2 : CycleEnv) (inputs : List LoopInput),
       (∀ i ∈ inputs, i = LoopInput.tick) →
       processInputs env2 (checkAndCommit envPushFail d0).1 inputs =
         ((checkAndCommit envPushFail d0).1, [])) :=
  ⟨rfl, by decide, rfl, rfl, rfl, rfl, rfl, rfl,
   push_failure_pauses_daemon envPushFail d0 " M main.go\n".data
     "diff --git a/main.go b/main.go\n".data "fix: sample" "remote rejected"
     rfl (by decide) rfl rfl rfl rfl rfl rfl⟩

/-- The porcelain output of a working tree is non-blank exactly when some
tracked file is modified or some file is untracked. -/
theorem hasChanges_porcelain_iff (wt : WorkTree) :
    HasChanges (gitStatusPorcelain wt) = true ↔
      wt.trackedModified ≠ [] ∨ wt.untracked ≠ [] := by
  rw [hasChanges_iff_exists]
  constructor
  · rintro ⟨c, hc, _⟩
    by_contra hboth
    push_neg at hboth
    obtain ⟨h1, h2⟩ := hboth
    unfold gitStatusPorcelain at hc
    rw [h1, h2] at hc
    simp at hc
  · rintro (h | h)
    · obtain ⟨p, ps, hp⟩ := List.exists_cons_of_ne_nil h
      refine ⟨'M', ?_, by decide⟩
      unfold gitStatusPorcelain
      rw [hp]
      refine List.mem_flatten.mpr ⟨' ' :: 'M' :: ' ' :: p ++ ['\n'], ?_, by simp⟩
      exact List.mem_append_left _
        (List.mem_map_of_mem _ (List.mem_cons_self p ps))
    · obtain ⟨p, ps, hp⟩ := List.exists_cons_of_ne_nil h
      refine ⟨'?', ?_, by decide⟩
      unfold gitStatusPorcelain
      rw [hp]
      refine List.mem_flatten.mpr ⟨'?' :: '?' :: ' ' :: p ++ ['\n'], ?_, by simp⟩
      exact List.mem_append_right _
        (List.mem_map_of_mem _ (List.mem_cons_self p ps))

/-- Any cycle that reaches the generation step calls the backend exactly
once, whatever happens afterwards. -/
theorem generateCalls_one (env : CycleEnv) (d : DaemonState)
    (statusOut diffOut : Bytes)
    (h1 : env.git.statusPorcelain = Except.ok statusOut)
    (h2 : HasChanges statusOut = true)
    (h3 : env.git.diffOutput = Except.ok diffOut) :
    generateCalls (checkAndCommit env d).2 = 1 := by
  cases hg : env.generate (GetDiff diffOut) with
  | error e =>
      simp [checkAndCommit, h1, h2, h3, hg, generateCalls, isGenerateCall,
        List.filter_cons]
  | ok m =>
    cases ha : env.git.addAllResult with
    | error e =>
        simp [checkAndCommit, h1, h2, h3, hg, ha, generateCalls, isGenerateCall,
          List.filter_cons]
    | ok u =>
      cases hc : env.git.commitResult with
      | error e =>
          simp [checkAndCommit, h1, h2, h3, hg, ha, hc, generateCalls,
            isGenerateCall, List.filter_cons]
      | ok u2 =>
        cases hp : env.git.pushResult with
        | error e =>
            simp [checkAndCommit, h1, h2, h3, hg, ha, hc, hp, generateCalls,
              isGenerateCall, List.filter_cons]
        | ok u3 =>
            simp [checkAndCommit, h1, h2, h3, hg, ha, hc, hp, generateCalls,
              isGenerateCall, List.filter_cons]

/-- C7: the detect step fires exactly when the working tree has uncommitted
modifications, counting tracked changes and untracked files; and for a tree
with one modified tracked file and no untracked files, changes are detected,
the diff is non-empty, and the cycle attempts exactly one generation call. -/
theorem detect_diff_scenario :
    (∀ wt : WorkTree,
      HasChanges (gitStatusPorcelain wt) = true ↔
        wt.trackedModified ≠ [] ∨ wt.untracked ≠ []) ∧
    (∀ (p : Bytes) (env : CycleEnv) (d : DaemonState),
      env.git.statusPorcelain = Except.ok (gitStatusPorcelain ⟨[p], []⟩) →
      env.git.diffOutput = Except.ok (gitDiff ⟨[p], []⟩) →
      HasChanges (gitStatusPorcelain ⟨[p], []⟩) = true ∧
      gitDiff ⟨[p], []⟩ ≠ [] ∧
      generateCalls (checkAndCommit env d).2 = 1) := by
  refine ⟨hasChanges_porcelain_iff, fun p env d h1 h2 => ?_⟩
  have hch : HasChanges (gitStatusPorcelain ⟨[p], []⟩) = true :=
    (hasChanges_porcelain_iff ⟨[p], []⟩).mpr (Or.inl (by simp))
  refine ⟨hch, ?_, generateCalls_one env d _ _ h1 hch h2⟩
  exact List.ne_nil_of_mem (a := '\n') (by simp [gitDiff])

/-- C7 witness: the scenario instantiated with the file main.go and the
sample push-failure environment (whose porcelain and diff outputs are the
collaborator outputs for that tree). -/
theorem detect_diff_scenario_witness :
    envPushFail.git.statusPorcelain =
      Except.ok (gitStatusPorcelain ⟨["main.go".data], []⟩) ∧
    envPushFail.git.diffOutput =
      Except.ok (gitDiff ⟨["main.go".data], []⟩) ∧
    (HasChanges (gitStatusPorcelain ⟨["main.go".data], []⟩) = true ∧
     gitDiff ⟨["main.go".data], []⟩ ≠ [] ∧
     generateCalls (checkAndCommit envPushFail d0).2 = 1) :=
  ⟨rfl, rfl,
   detect_diff_scenario.2 "main.go".data envPushFail d0 rfl rfl⟩

/-- C2 (counterexample): in the concrete push-failure run the loop changes
its in-memory status (running to error) yet emits no daemon-descriptor file
write at all, so other control processes observing the descriptor do not see
the new status. -/
theorem status_change_without_descriptor_write :
    (checkAndCommit envPushFail d0).1.status ≠ d0.status ∧
    ∀ info : DaemonInfo,
      Event.writeDaemonInfo info ∉ (checkAndCommit envPushFail d0).2 := by
  have h : checkAndCommit envPushFail d0 =
      ({ status := StatusError, repoName := "git-autobot", tickerActive := false },
       [Event.logMsg "Checking for changes...", Event.callHasChanges,
        Event.logMsg "Changes detected, generating commit message...",
        Event.callGetDiff, Event.callGenerate "diff --git a/main.go b/main.go\n".data,
        Event.logMsg "Generated commit message: fix: sample",
        Event.callAddAll, Event.callCommit "fix: sample",
        Event.logMsg "Committed successfully", Event.callPush,
        Event.logMsg "ERROR: Failed to push: remote rejected",
        Event.notifyError "git-autobot" "remote rejected", Event.tickerStop]) := by
    decide
  constructor
  · rw [h]
    decide
  · intro info
    rw [h]
    simp

/-- C2 (amended): the daemon loop never updates the descriptor file at its
status transitions; the descriptor is written only at spawn time, by
`StartDaemonProcess`, with the child pid, the root path, and status
`running`.  Status changes inside the loop are visible only in its own
memory. -/
theorem daemon_loop_never_writes_descriptor :
    (∀ (env : CycleEnv) (d : DaemonState) (info : DaemonInfo),
      Event.writeDaemonInfo info ∉ (checkAndCommit env d).2) ∧
    (∀ (x : String) (pid : Int) (root : String),
      (StartDaemonProcess (Except.ok x) (Except.ok pid) (Except.ok ()) root).2 =
        [Event.writeDaemonInfo
          { pid := pid, repoPath := root, status := StatusRunning }]) := by
  constructor
  · intro env d info
    cases hs : env.git.statusPorcelain with
    | error e => simp [checkAndCommit, hs]
    | ok s =>
      by_cases hch : HasChanges s = false
      · simp [checkAndCommit, hs, hch]
      · rw [Bool.not_eq_false] at hch
        cases hd : env.git.diffOutput with
        | error e => simp [checkAndCommit, hs, hch, hd]
        | ok dOut =>
          cases hg : env.generate (GetDiff dOut) with
          | error e => simp [checkAndCommit, hs, hch, hd, hg]
          | ok m =>
            cases ha : env.git.addAllResult with
            | error e => simp [checkAndCommit, hs, hch, hd, hg, ha]
            | ok u =>
              cases hc : env.git.commitResult with
              | error e => simp [checkAndCommit, hs, hch, hd, hg, ha, hc]
              | ok u2 =>
                cases hp : env.git.pushResult with
                | error e => simp [checkAndCommit, hs, hch, hd, hg, ha, hc, hp]
                | ok u3 => simp [checkAndCommit, hs, hch, hd, hg, ha, hc, hp]
  · intro x pid root
    rfl

/-- C2 (amended) witness: the push-failure run writes no descriptor, while a
successful spawn writes one with the child pid and running status. -/
theorem daemon_loop_never_writes_descriptor_witness :
    Event.writeDaemonInfo info0 ∉ (checkAndCommit envPushFail d0).2 ∧
    (StartDaemonProcess (Except.ok "/usr/local/bin/autogit") (Except.ok 4242)
        (Except.ok ()) "/home/u/git-autobot").2 =
      [Event.writeDaemonInfo
        { pid := 4242, repoPath := "/home/u/git-autobot", status := StatusRunning }] :=
  ⟨daemon_loop_never_writes_descriptor.1 envPushFail d0 info0,
   daemon_loop_never_writes_descriptor.2 "/usr/local/bin/autogit" 4242
     "/home/u/git-autobot"⟩

/-- C8: the status operation reports not-running when the descriptor is
absent or unreadable, reports crashed (and never a stored-status report) when
the recorded pid is not live, reports the stored status, pid, and path when
the pid is live, and in every case performs no persisted-state mutation. -/
theorem status_reporting :
    (∀ (e : String) (live : Int → Bool),
      statusCmd (Except.error e) live = (StatusReport.notRunning, [])) ∧
    (∀ live : Int → Bool,
      statusCmd (Except.ok none) live = (StatusReport.notRunning, [])) ∧
    (∀ (info : DaemonInfo) (live : Int → Bool), live info.pid = false →
      statusCmd (Except.ok (some info)) live = (StatusReport.crashed, []) ∧
      ∀ s p r, (statusCmd (Except.ok (some info)) live).1 ≠ StatusReport.report s p r) ∧
    (∀ (info : DaemonInfo) (live : Int → Bool), live info.pid = true →
      statusCmd (Except.ok (some info)) live =
        (StatusReport.report info.status info.pid info.repoPath, [])) ∧
    (∀ (load : Except String (Option DaemonInfo)) (live : Int → Bool),
      (statusCmd load live).2 = []) := by
  refine ⟨fun e live => rfl, fun live => rfl, fun info live h => ?_,
    fun info live h => by simp [statusCmd, h], fun load live => ?_⟩
  · have hc : statusCmd (Except.ok (some info)) live = (StatusReport.crashed, []) := by
      simp [statusCmd, h]
    exact ⟨hc, fun s p r => by simp [hc]⟩
  · cases load with
    | error e => rfl
    | ok o =>
      cases o with
      | none => rfl
      | some info => by_cases h : live info.pid <;> simp [statusCmd, h]

/-- C8 witness: concrete status calls for each descriptor/liveness shape. -/
theorem status_reporting_witness :
    statusCmd (Except.error "read failure") (fun _ => false) =
      (StatusReport.notRunning, []) ∧
    statusCmd (Except.ok none) (fun _ => false) = (StatusReport.notRunning, []) ∧
    ((fun _ : Int => false) info0.pid = false ∧
      statusCmd (Except.ok (some info0)) (fun _ => false) =
        (StatusReport.crashed, [])) ∧
    ((fun _ : Int => true) info0.pid = true ∧
      statusCmd (Except.ok (some info0)) (fun _ => true) =
        (StatusReport.report info0.status info0.pid info0.repoPath, [])) :=
  ⟨status_reporting.1 "read failure" _, status_reporting.2.1 _,
   ⟨rfl, (status_reporting.2.2.1 info0 _ rfl).1⟩,
   ⟨rfl, status_reporting.2.2.2.1 info0 _ rfl⟩⟩

/-- C9: pause with no descriptor fails not-running with no side effect (in
particular it never creates a descriptor); with a dead pid it deletes the
stale descriptor and fails not-running; only a live pid gets the termination
signal, followed by descriptor deletion; and a signal is only ever sent to
the pid recorded in a loaded descriptor that passed the liveness probe. -/
theorem pause_behaviour :
    (∀ (e : String) (live : Int → Bool) (fk : Bool) (sr : Except String Unit),
      pauseCmd (Except.error e) live fk sr = (Except.error "no daemon is running", [])) ∧
    (∀ (live : Int → Bool) (fk : Bool) (sr : Except String Unit),
      pauseCmd (Except.ok none) live fk sr = (Except.error "no daemon is running", [])) ∧
    (∀ (info : DaemonInfo) (live : Int → Bool) (fk : Bool) (sr : Except String Unit),
      live info.pid = false →
      pauseCmd (Except.ok (some info)) live fk sr =
        (Except.error "daemon process not found (may have crashed)",
         [CtlEffect.deleteDaemonFile])) ∧
    (∀ (info : DaemonInfo) (live : Int → Bool), live info.pid = true →
      pauseCmd (Except.ok (some info)) live true (Except.ok ()) =
        (Except.ok (), [CtlEffect.sendSigterm info.pid, CtlEffect.deleteDaemonFile])) ∧
    (∀ (load : Except String (Option DaemonInfo)) (live : Int → Bool) (fk : Bool)
        (sr : Except String Unit) (i : DaemonInfo),
      CtlEffect.writeDaemonFile i ∉ (pauseCmd load live fk sr).2) ∧
    (∀ (load : Except String (Option DaemonInfo)) (live : Int → Bool) (fk : Bool)
        (sr : Except String Unit) (p : Int),
      CtlEffect.sendSigterm p ∈ (pauseCmd load live fk sr).2 →
      ∃ info, load = Except.ok (some info) ∧ info.pid = p ∧ live p = true) := by
  refine ⟨fun e live fk sr => rfl, fun live fk sr => rfl,
    fun info live fk sr h => by simp [pauseCmd, h],
    fun info live h => by simp [pauseCmd, h],
    fun load live fk sr i => ?_, fun load live fk sr p hmem => ?_⟩
  · cases load with
    | error e => simp [pauseCmd]
    | ok o =>
      cases o with
      | none => simp [pauseCmd]
      | some info =>
        by_cases hl : live info.pid
        · cases fk with
          | false => simp [pauseCmd, hl]
          | true =>
            cases sr with
            | error e2 => simp [pauseCmd, hl]
            | ok u => simp [pauseCmd, hl]
        · simp [pauseCmd, hl]
  · cases load with
    | error e => simp [pauseCmd] at hmem
    | ok o =>
      cases o with
      | none => simp [pauseCmd] at hmem
      | some info =>
        by_cases hl : live info.pid
        · cases fk with
          | false => simp [pauseCmd, hl] at hmem
          | true =>
            cases sr with
            | error e2 =>
                simp [pauseCmd, hl] at hmem
                exact ⟨info, rfl, hmem.symm, by rw [hmem]; exact hl⟩
            | ok u =>
                simp [pauseCmd, hl] at hmem
                exact ⟨info, rfl, hmem.symm, by rw [hmem]; exact hl⟩
        · simp [pauseCmd, hl] at hmem

/-- C9 witness: concrete pause calls for each descriptor/liveness shape. -/
theorem pause_behaviour_witness :
    pauseCmd (Except.error "read failure") (fun _ => false) false (Except.ok ()) =
      (Except.error "no daemon is running", []) ∧
    pauseCmd (Except.ok none) (fun _ => false) false (Except.ok ()) =
      (Except.error "no daemon is running", []) ∧
    ((fun _ : Int => false) info0.pid = false ∧
      pauseCmd (Except.ok (some info0)) (fun _ => false) true (Except.ok ()) =
        (Except.error "daemon process not found (may have crashed)",
         [CtlEffect.deleteDaemonFile])) ∧
    ((fun _ : Int => true) info0.pid = true ∧
      pauseCmd (Except.ok (some info0)) (fun _ => true) true (Except.ok ()) =
        (Except.ok (), [CtlEffect.sendSigterm info0.pid, CtlEffect.deleteDaemonFile])) :=
  ⟨pause_behaviour.1 "read failure" _ _ _, pause_behaviour.2.1 _ _ _,
   ⟨rfl, pause_behaviour.2.2.1 info0 _ true (Except.ok ()) rfl⟩,
   ⟨rfl, pause_behaviour.2.2.2.1 info0 _ rfl⟩⟩

end Autogit
